import Mathlib

/-!
Verification of the configuration resolution/validation engine of the
readthedocs repository, shallowly embedded from
`src/readthedocs/config/config.py` and `src/readthedocs/settings/base.py`.

The raw parsed document is modelled by `Val`, a YAML-like value tree whose
mappings are ordered association lists (Python dicts preserve insertion
order).  Python floats only occur in this code as exact decimal literals
parsed from the document (for example `3.10` parsed as the float `3.1`);
they are modelled by their decimal repr string, which is faithful for the
two observable operations the code performs on them (equality with the
literal `3.1`, and `str`).

Stateful mutation of `self._raw_config` is modelled by explicit state
passing: each validator takes the raw document and returns the updated one.
Exceptions are modelled with `Except`.
-/

namespace RTD

/-- Splitting a string at a separator character, as Python's
`key.split('.')` (structurally recursive so that it computes by
definitional unfolding). -/
def splitCharAux (sep : Char) : List Char → List Char → List String
  | [], acc => [String.mk acc.reverse]
  | c :: cs, acc =>
      if c == sep then String.mk acc.reverse :: splitCharAux sep cs []
      else splitCharAux sep cs (c :: acc)

/-- `s.split(sep)` for a single-character separator. -/
def splitChar (sep : Char) (s : String) : List String :=
  splitCharAux sep s.data []

/-- Whether a string starts with the given character. -/
def startsWithChar (s : String) (c : Char) : Bool :=
  match s.data with
  | [] => false
  | d :: _ => d == c

/-- Whether a string starts with `".."`. -/
def startsWithDotDot (s : String) : Bool :=
  match s.data with
  | a :: b :: _ => a == '.' && b == '.'
  | _ => false

/-- Python `str.strip()`: remove surrounding whitespace. -/
def pyStrip (s : String) : String :=
  String.mk (((s.data.dropWhile Char.isWhitespace).reverse.dropWhile
    Char.isWhitespace).reverse)

/-- Whether `small` is a prefix of `big` (character lists). -/
def listStartsWith : List Char → List Char → Bool
  | _, [] => true
  | [], _ :: _ => false
  | a :: as, b :: bs => a == b && listStartsWith as bs

/-- Whether `small` occurs inside `big` (Python `small in big` on
strings). -/
def listContainsSub : List Char → List Char → Bool
  | [], small => small.isEmpty
  | big@(_ :: rest), small => listStartsWith big small || listContainsSub rest small

/-- `'.'.join(keys)`. -/
def joinKeys : List String → String
  | [] => ""
  | [k] => k
  | k :: rest => k ++ "." ++ joinKeys rest

/-- A parsed YAML-like value, as produced by the external parser. -/
inductive Val where
  | vnone
  | vbool (b : Bool)
  | vint (n : Int)
  | vfloat (r : String)
  | vstr (s : String)
  | vlist (xs : List Val)
  | vdict (entries : List (String × Val))

/-- Python truthiness (`bool(v)`) for the values above.  A float is falsy
only when it is zero; containers when empty. -/
def truthy : Val → Bool
  | .vnone => false
  | .vbool b => b
  | .vint n => n != 0
  | .vfloat r => r != "0.0" && r != "0"
  | .vstr s => !s.data.isEmpty
  | .vlist xs => !xs.isEmpty
  | .vdict xs => !xs.isEmpty

/-- Python `str()` on the scalar values the code converts (`str(version)`,
`str(_build['image'])` and string formatting).  Container reprs are never
observed by the embedded code and are given placeholders. -/
def pyStr : Val → String
  | .vnone => "None"
  | .vbool b => if b then "True" else "False"
  | .vint n => toString n
  | .vfloat r => r
  | .vstr s => s
  | .vlist _ => "[...]"
  | .vdict _ => "{...}"

mutual

/-- Python `==` between parsed values, restricted to the comparisons the
embedded code performs.  Booleans compare equal to the integers 0/1 as in
Python; mappings are compared entry-wise in order (the embedded code never
compares two mappings). -/
def pyEq : Val → Val → Bool
  | .vnone, .vnone => true
  | .vbool a, .vbool b => a == b
  | .vbool a, .vint n => (if a then (1 : Int) else 0) == n
  | .vint n, .vbool a => n == (if a then (1 : Int) else 0)
  | .vint a, .vint b => a == b
  | .vfloat a, .vfloat b => a == b
  | .vstr a, .vstr b => a == b
  | .vlist a, .vlist b => pyEqList a b
  | .vdict a, .vdict b => pyEqDict a b
  | _, _ => false

def pyEqList : List Val → List Val → Bool
  | [], [] => true
  | a :: as, b :: bs => pyEq a b && pyEqList as bs
  | _, _ => false

def pyEqDict : List (String × Val) → List (String × Val) → Bool
  | [], [] => true
  | (k, a) :: as, (l, b) :: bs => k == l && pyEq a b && pyEqDict as bs
  | _, _ => false

end

/-- Lookup in an ordered mapping (`d[k]` / `k in d`). -/
def dget : List (String × Val) → String → Option Val
  | [], _ => none
  | (k, v) :: rest, key => if k == key then some v else dget rest key

/-- `d[k] = v`: update in place when the key exists, else append (Python
dict assignment preserves the position of existing keys). -/
def dset : List (String × Val) → String → Val → List (String × Val)
  | [], key, v => [(key, v)]
  | (k, w) :: rest, key, v =>
      if k == key then (k, v) :: rest else (k, w) :: dset rest key v

/-- `d.pop(k)`: remove an entry, preserving the order of the others. -/
def dremove : List (String × Val) → String → List (String × Val)
  | [], _ => []
  | (k, w) :: rest, key =>
      if k == key then rest else (k, w) :: dremove rest key

/-- `d.get(k, default)` on a mapping value; the embedded code only calls
`.get` on values already validated to be mappings. -/
def vget (v : Val) (key : String) (dflt : Val) : Val :=
  match v with
  | .vdict m => (dget m key).getD dflt
  | _ => dflt

/-- `d.get(k)` returning Python `None` as `Option.none` when absent. -/
def vgetOpt (v : Val) (key : String) : Option Val :=
  match v with
  | .vdict m => dget m key
  | _ => none

/-- `k in d` for a mapping value. -/
def vhas (v : Val) (key : String) : Bool :=
  match v with
  | .vdict m => (dget m key).isSome
  | _ => false

/-- Error codes raised by validation primitives.  Modelled from the spec:
every primitive failure carries a generic code, `VALUE_NOT_FOUND` or a
shape mismatch code (the primitives live in `readthedocs/config/validation.py`,
which is not part of the sources given). -/
def VALUE_NOT_FOUND : String := "value-not-found"

def INVALID_BOOL : String := "invalid-bool"

def INVALID_CHOICE : String := "invalid-choice"

def INVALID_LIST : String := "invalid-list"

def INVALID_DICT : String := "invalid-dict"

def INVALID_STRING : String := "invalid-string"

def INVALID_PATH : String := "invalid-path"

def INVALID_PATH_PATTERN : String := "invalid-path-pattern"

/-- Error codes of the configuration engine, from `config.py`. -/
def CONFIG_NOT_SUPPORTED : String := "config-not-supported"

def VERSION_INVALID : String := "version-invalid"

def CONFIG_SYNTAX_INVALID : String := "config-syntax-invalid"

def CONFIG_REQUIRED : String := "config-required"

def CONFIG_FILE_REQUIRED : String := "config-file-required"

def PYTHON_INVALID : String := "python-invalid"

def SUBMODULES_INVALID : String := "submodules-invalid"

def INVALID_KEYS_COMBINATION : String := "invalid-keys-combination"

def INVALID_KEY : String := "invalid-key"

def INVALID_NAME : String := "invalid-name"

def ALL : String := "all"

def PIP : String := "pip"

def SETUPTOOLS : String := "setuptools"

/-- Errors in flight during a validation pass: a `ValidationError` raised by
a primitive (carrying only its code), an `InvalidConfig` produced by
`catch_validation_error`/`self.error` (carrying the dotted key path and the
code; the human message and source file are not modelled), or a Python-level
exception (`TypeError`/`KeyError`) on paths the validators never guard. -/
inductive CfgErr where
  | vfail (code : String)
  | invalid (key : String) (code : String)
  | pyexc

/-- `catch_validation_error(key)`: re-raise a primitive `ValidationError` as
an `InvalidConfig` tagged with the caller-supplied key path; `InvalidConfig`
and Python-level exceptions pass through unchanged. -/
def catchVE (key : String) (x : Except CfgErr α) : Except CfgErr α :=
  match x with
  | .error (.vfail code) => .error (.invalid key code)
  | other => other

/-- Lift a primitive result into the engine's error type. -/
def liftV (x : Except String α) : Except CfgErr α :=
  match x with
  | .ok a => .ok a
  | .error code => .error (.vfail code)

/-- Modelled from the spec: the `boolean(v)` primitive of the validation
module (not in the given sources): a type check failing uniformly, returning
the value. -/
def validate_bool (v : Val) : Except String Val :=
  match v with
  | .vbool b => .ok (.vbool b)
  | _ => .error INVALID_BOOL

/-- Modelled from the spec: the `mapping(v)` primitive. -/
def validate_dict (v : Val) : Except String (List (String × Val)) :=
  match v with
  | .vdict m => .ok m
  | _ => .error INVALID_DICT

/-- Modelled from the spec: the `sequence(v)` primitive. -/
def validate_list (v : Val) : Except String (List Val) :=
  match v with
  | .vlist xs => .ok xs
  | _ => .error INVALID_LIST

/-- Modelled from the spec: the `string(v)` primitive. -/
def validate_string (v : Val) : Except String String :=
  match v with
  | .vstr s => .ok s
  | _ => .error INVALID_STRING

/-- Modelled from the spec: the `choice(v, legal-set)` primitive — a
case-sensitive membership test returning the value itself. -/
def validate_choice (v : Val) (choices : List Val) : Except String Val :=
  if choices.any (fun c => pyEq v c) then .ok v else .error INVALID_CHOICE

/-- Modelled from the spec: the `path(v, base)` primitive — the value is a
non-empty string resolved relative to the base directory and must not
escape it (no absolute paths, no leading `..` segment); the path need not
exist.  The base directory does not influence the outcome and is omitted. -/
def validate_path (v : Val) : Except String String := do
  let s ← validate_string v
  if s.data.isEmpty then .error INVALID_PATH
  else if startsWithChar s '/' then .error INVALID_PATH
  else if startsWithDotDot s then .error INVALID_PATH
  else .ok s

/-- Modelled from the spec: the `path_pattern(v)` primitive — syntactic glob
validation only, no filesystem check; patterns may not escape the base via
`..` segments and leading slashes are stripped. -/
def validate_path_pattern (v : Val) : Except String String := do
  let s ← validate_string v
  let s := if startsWithChar s '/' then String.mk (s.data.dropWhile (fun c => c == '/')) else s
  if (splitChar '/' s).contains ".." then .error INVALID_PATH_PATTERN
  else .ok s

/-- Modelled from the spec: `list_to_dict` from `readthedocs/config/utils.py`
(not in the given sources) — install and apt-package entries are validated
positionally, so the list is transformed into a mapping keyed by the decimal
index, enabling per-entry `pop` by key path. -/
def list_to_dict (xs : List Val) : List (String × Val) :=
  (List.range xs.length).zip xs |>.map (fun p => (toString p.1, p.2))

/-- `BuildConfigBase.pop` (`config.py` lines 237-260): descend a key path
into the raw mapping, removing the leaf on success and pruning now-empty
intermediate mappings; absent paths yield the default or, when `raiseEx`,
a `VALUE_NOT_FOUND` validation error.  Returns the popped value together
with the updated container. -/
def popKey : String → List String → Val → Val → Bool → Except CfgErr (Val × Val)
  | key, rest, .vdict m, dflt, raiseEx =>
      match dget m key with
      | some v =>
          match rest with
          | [] => .ok (v, .vdict (dremove m key))
          | r :: rs => do
              let (value, v2) ← popKey r rs v dflt raiseEx
              let m2 := if truthy v2 then dset m key v2 else dremove m key
              pure (value, .vdict m2)
      | none =>
          if raiseEx then .error (.vfail VALUE_NOT_FOUND)
          else .ok (dflt, .vdict m)
  | _, _, _, _, _ => .error (.vfail INVALID_DICT)

/-- `BuildConfigBase.pop_config`: split the dotted key and pop it from the
raw document. -/
def pop_config (key : String) (raw : Val) (dflt : Val) (raiseEx : Bool) :
    Except CfgErr (Val × Val) :=
  match splitChar '.' key with
  | [] => .ok (dflt, raw)
  | k :: rest => popKey k rest raw dflt raiseEx

/-! Settings, translated from `src/readthedocs/settings/base.py`. -/

def DOCKER_DEFAULT_IMAGE : String := "readthedocs/build"

def DOCKER_DEFAULT_VERSION : String := "latest"

def DOCKER_IMAGE : String := DOCKER_DEFAULT_IMAGE ++ ":" ++ DOCKER_DEFAULT_VERSION

/-- The per-image settings entry for `readthedocs/build:2.0`. -/
def imageSettings20 : Val :=
  .vdict [("python", .vdict
    [("supported_versions", .vlist [.vstr "2", .vstr "2.7", .vstr "3", .vstr "3.5"]),
     ("default_version", .vdict [("2", .vstr "2.7"), ("3", .vstr "3.5")])])]

/-- The per-image settings entry for `readthedocs/build:4.0` (note the
unquoted `3.7` in the source, a YAML/Python float, not a string). -/
def imageSettings40 : Val :=
  .vdict [("python", .vdict
    [("supported_versions", .vlist
      [.vstr "2", .vstr "2.7", .vstr "3", .vstr "3.5", .vstr "3.6", .vfloat "3.7"]),
     ("default_version", .vdict [("2", .vstr "2.7"), ("3", .vstr "3.7")])])]

/-- The per-image settings entry for `readthedocs/build:5.0`. -/
def imageSettings50 : Val :=
  .vdict [("python", .vdict
    [("supported_versions", .vlist
      [.vstr "2", .vstr "2.7", .vstr "3", .vstr "3.5", .vstr "3.6", .vstr "3.7",
       .vstr "pypy3.5"]),
     ("default_version", .vdict [("2", .vstr "2.7"), ("3", .vstr "3.7")])])]

/-- The per-image settings entry for `readthedocs/build:6.0`. -/
def imageSettings60 : Val :=
  .vdict [("python", .vdict
    [("supported_versions", .vlist
      [.vstr "2", .vstr "2.7", .vstr "3", .vstr "3.5", .vstr "3.6", .vstr "3.7",
       .vstr "3.8", .vstr "pypy3.5"]),
     ("default_version", .vdict [("2", .vstr "2.7"), ("3", .vstr "3.7")])])]

/-- The per-image settings entry for `readthedocs/build:7.0`. -/
def imageSettings70 : Val :=
  .vdict [("python", .vdict
    [("supported_versions", .vlist
      [.vstr "2", .vstr "2.7", .vstr "3", .vstr "3.5", .vstr "3.6", .vstr "3.7",
       .vstr "3.8", .vstr "3.9", .vstr "3.10", .vstr "pypy3.5"]),
     ("default_version", .vdict [("2", .vstr "2.7"), ("3", .vstr "3.7")])])]

/-- `settings.DOCKER_IMAGE_SETTINGS`, including the `stable`/`latest`/`testing`
aliases appended by the subsequent `update` call. -/
def DOCKER_IMAGE_SETTINGS : List (String × Val) :=
  [("readthedocs/build:2.0", imageSettings20),
   ("readthedocs/build:4.0", imageSettings40),
   ("readthedocs/build:5.0", imageSettings50),
   ("readthedocs/build:6.0", imageSettings60),
   ("readthedocs/build:7.0", imageSettings70),
   ("readthedocs/build:stable", imageSettings50),
   ("readthedocs/build:latest", imageSettings60),
   ("readthedocs/build:testing", imageSettings70)]

/-- `settings.RTD_DOCKER_BUILD_SETTINGS['os']`. -/
def dockerBuildOs : List (String × String) :=
  [("ubuntu-20.04", "readthedocs/build:ubuntu-20.04"),
   ("ubuntu-22.04", "readthedocs/build:ubuntu-22.04")]

/-- `settings.RTD_DOCKER_BUILD_SETTINGS['tools']`, with the `'3'` alias for
python appended by the subsequent assignment. -/
def dockerBuildTools : List (String × List (String × String)) :=
  [("python",
    [("2.7", "2.7.18"), ("3.6", "3.6.15"), ("3.7", "3.7.15"), ("3.8", "3.8.15"),
     ("3.9", "3.9.15"), ("3.10", "3.10.8"), ("3.11", "3.11.0"),
     ("pypy3.7", "pypy3.7-7.3.9"), ("pypy3.8", "pypy3.8-7.3.9"),
     ("pypy3.9", "pypy3.9-7.3.9"), ("miniconda3-4.7", "miniconda3-4.7.12"),
     ("mambaforge-4.10", "mambaforge-4.10.3-10"), ("3", "3.11.0")]),
   ("nodejs", [("14", "14.20.1"), ("16", "16.18.0"), ("18", "18.11.0"), ("19", "19.0.0")]),
   ("rust", [("1.55", "1.55.0"), ("1.61", "1.61.0"), ("1.64", "1.64.0")]),
   ("golang", [("1.17", "1.17.13"), ("1.18", "1.18.7"), ("1.19", "1.19.2")])]

/-- Lookup of a tool's version table in the build-settings catalog. -/
def toolVersions (tool : String) : Option (List (String × String)) :=
  (dockerBuildTools.find? (fun p => p.1 == tool)).map Prod.snd

/-- `re.fullmatch(r'^[\d\.]+$', version)` from `valid_build_images`. -/
def isNumericVersion (s : String) : Bool :=
  !s.data.isEmpty && s.data.all (fun c => c.isDigit || c == '.')

/-- The version part of a docker image key (`_, version = k.split(':')`). -/
def imageVersionPart (k : String) : String :=
  (splitChar ':' k).getD 1 ""

/-- `BuildConfigBase.valid_build_images`: `{stable, latest, testing}` plus the
numeric version parts of the catalog's image keys.  The source builds a set;
only membership is observed, so a list with duplicates is equivalent. -/
def valid_build_images : List String :=
  ["stable", "latest", "testing"] ++
    (DOCKER_IMAGE_SETTINGS.map Prod.fst).filterMap
      (fun k =>
        let v := imageVersionPart k
        if isNumericVersion v then some v else none)

/-- `get_valid_python_versions_for_image` from `BuildConfigBase`: the
supported python versions of the image, falling back to the default image
when the image is not in the catalog.  The image may be any raw value (a
project override); membership uses Python equality. -/
def get_valid_python_versions_for_image (image : Val) : List Val :=
  let entry := DOCKER_IMAGE_SETTINGS.find? (fun p => pyEq image (.vstr p.1))
  let entry := match entry with
    | some e => e.2
    | none =>
        (DOCKER_IMAGE_SETTINGS.find? (fun p =>
          p.1 == DOCKER_DEFAULT_IMAGE ++ ":" ++ DOCKER_DEFAULT_VERSION)).elim
          Val.vnone Prod.snd
  match vget (vget entry "python" .vnone) "supported_versions" .vnone with
  | .vlist xs => xs
  | _ => []

/-- Modelled from the spec: `BuildJobs.__slots__` from
`readthedocs/config/models.py` (not in the given sources) — the fixed set of
lifecycle-phase names that `build.jobs` may customize; the spec's examples
use `pre_build`. -/
def buildJobsSlots : List String :=
  ["post_checkout", "post_system_dependencies", "pre_create_environment",
   "post_create_environment", "pre_install", "post_install",
   "pre_build", "post_build"]

/-- Validate each element of a list against a legal set
(`for x in xs: validate_choice(x, choices)`). -/
def validate_choices : List Val → List Val → Except String Unit
  | [], _ => .ok ()
  | x :: rest, choices => do
      let _ ← validate_choice x choices
      validate_choices rest choices

/-- `[validate_string(x) for x in xs]`. -/
def stringsAll : List Val → Except String (List String)
  | [] => .ok []
  | x :: rest => do
      let s ← validate_string x
      let ss ← stringsAll rest
      pure (s :: ss)

/-- `[validate_path_pattern(x) for x in xs]`. -/
def patternsAll : List Val → Except String (List String)
  | [] => .ok []
  | x :: rest => do
      let p ← validate_path_pattern x
      let ps ← patternsAll rest
      pure (p :: ps)

namespace V2

/-- `BuildConfigV2.valid_formats`. -/
def valid_formats : List String := ["htmlzip", "pdf", "epub"]

/-- `BuildConfigV2.valid_sphinx_builders`. -/
def valid_sphinx_builders : List (String × String) :=
  [("html", "sphinx"), ("htmldir", "sphinx_htmldir"),
   ("dirhtml", "sphinx_htmldir"), ("singlehtml", "sphinx_singlehtml")]

/-- The validated modern (`build.os`) build section, mirroring the keys the
source stores in `self._config['build']` on that path. -/
structure BuildWithOs where
  os : Val
  tools : List (String × Val)
  jobs : List (String × List String)
  commands : List String
  apt_packages : List String

/-- The validated legacy build section (`image` plus apt packages). -/
structure BuildLegacy where
  image : Val
  apt_packages : List String

/-- The validated build section: exactly one of the modern or legacy forms
(`BuildWithOs` versus `Build` in the source models). -/
inductive BuildResult where
  | withOs (b : BuildWithOs)
  | legacy (b : BuildLegacy)

/-- `BuildConfigBase.using_build_tools`: whether the validated build section
is the modern (`BuildWithOs`) form. -/
def BuildResult.usingBuildTools : BuildResult → Bool
  | .withOs _ => true
  | .legacy _ => false

/-- `self.build.image`; only accessed on the legacy path (`BuildWithOs` has
no image attribute and accessing it would raise). -/
def BuildResult.image : BuildResult → Val
  | .legacy b => b.image
  | .withOs _ => .vnone

/-- One validated `python.install` entry: a requirements file, or a project
path with an install method and extra requirement names. -/
inductive PythonInstallEntry where
  | requirements (path : String)
  | withPath (path : String) (method : Val) (extra_requirements : List Val)

/-- The validated `python` section of a V2 document. -/
structure PythonConfig where
  version : Option Val
  install : List PythonInstallEntry
  use_system_site_packages : Val

/-- The validated `mkdocs` section. -/
structure MkdocsConfig where
  configuration : Option String
  fail_on_warning : Val

/-- The validated `sphinx` section. -/
structure SphinxConfig where
  builder : String
  configuration : Option String
  fail_on_warning : Val

/-- The validated `submodules` section. -/
structure SubmodulesConfig where
  include_ : Val
  exclude : Val
  recursive : Val

/-- The validated `search` section. -/
structure SearchConfig where
  ranking : List (String × Val)
  ignore : List String

/-- `BuildConfigV2.validate_formats`: pop `formats` (default empty), expand
the `all` keyword to the full format list, otherwise check each entry. -/
def validate_formats (raw : Val) : Except CfgErr (List Val × Val) := do
  let (formats, raw) ← pop_config "formats" raw (.vlist []) false
  if pyEq formats (.vstr ALL) then
    pure (valid_formats.map Val.vstr, raw)
  else
    catchVE "formats" (do
      let xs ← liftV (validate_list formats)
      let _ ← liftV (validate_choices xs (valid_formats.map Val.vstr))
      pure (xs, raw))

/-- `BuildConfigV2.validate_conda`. -/
def validate_conda (raw : Val) : Except CfgErr (Option String × Val) := do
  match vgetOpt raw "conda" with
  | none => pure (none, raw)
  | some .vnone => pure (none, raw)
  | some rawConda => do
      let _ ← catchVE "conda" (liftV (validate_dict rawConda))
      catchVE "conda.environment" (do
        let (environment, raw) ← pop_config "conda.environment" raw .vnone true
        let p ← liftV (validate_path environment)
        pure (some p, raw))

/-- `self._raw_config.setdefault('build', {})['apt_packages'] = v`. -/
def setBuildAptPackages (raw : Val) (v : Val) : Except CfgErr Val :=
  match raw with
  | .vdict m =>
      match (dget m "build").getD (.vdict []) with
      | .vdict bm => .ok (.vdict (dset m "build" (.vdict (dset bm "apt_packages" v))))
      | _ => .error .pyexc
  | _ => .error .pyexc

/-- The character class of `^[a-zA-Z0-9][a-zA-Z0-9.+-]*$` from
`validate_apt_package`. -/
def aptNamePattern (s : String) : Bool :=
  match s.data with
  | [] => false
  | c :: cs =>
      (c.isAlpha || c.isDigit) &&
        cs.all (fun d => d.isAlpha || d.isDigit || d == '.' || d == '+' || d == '-')

/-- `BuildConfigV2.validate_apt_package`: pop the indexed entry, require a
string, strip surrounding whitespace, reject names starting with `-`, `/`
or `.` and names outside the allowed character pattern. -/
def validate_apt_package (i : Nat) (raw : Val) : Except CfgErr (String × Val) := do
  let key := "build.apt_packages." ++ toString i
  let (package, raw) ← pop_config key raw .vnone false
  catchVE key (do
    let s ← liftV (validate_string package)
    let t := pyStrip s
    if startsWithChar t '-' then Except.error (.invalid key INVALID_NAME)
    else if startsWithChar t '/' then Except.error (.invalid key INVALID_NAME)
    else if startsWithChar t '.' then Except.error (.invalid key INVALID_NAME)
    else if aptNamePattern t then pure (t, raw)
    else Except.error (.invalid key INVALID_NAME))

/-- The comprehension `[self.validate_apt_package(index) for index in
range(len(raw_packages))]`, threading the raw document. -/
def validate_apt_package_loop (raw : Val) (idx n : Nat) :
    Except CfgErr (List String × Val) :=
  match n with
  | 0 => .ok ([], raw)
  | Nat.succ k => do
      let (p, raw) ← validate_apt_package idx raw
      let (ps, raw) ← validate_apt_package_loop raw (idx + 1) k
      pure (p :: ps, raw)

/-- `BuildConfigV2.validate_apt_packages`. -/
def validate_apt_packages (raw : Val) : Except CfgErr (List String × Val) :=
  let rawPackages := vget (vget raw "build" (.vdict [])) "apt_packages" (.vlist [])
  catchVE "build.apt_packages" (do
    let pkgs ← liftV (validate_list rawPackages)
    let raw ← setBuildAptPackages raw (.vdict (list_to_dict pkgs))
    let (apt, raw) ← validate_apt_package_loop raw 0 pkgs.length
    if pkgs.isEmpty then do
      let (_, raw) ← pop_config "build.apt_packages" raw .vnone false
      pure (apt, raw)
    else pure (apt, raw))

/-- The loop building `build['jobs']`: each job's commands validated as a
list of strings under the key `build.jobs.<job>`. -/
def buildJobsLoop : List (String × Val) → Except CfgErr (List (String × List String))
  | [] => .ok []
  | (job, jcmds) :: rest => do
      let cmds ← catchVE ("build.jobs." ++ job) (liftV (do
        let xs ← validate_list jcmds
        stringsAll xs))
      let others ← buildJobsLoop rest
      pure ((job, cmds) :: others)

/-- The loop building `build['tools']`: each requested version validated
against the catalog's versions for that tool. -/
def toolsLoop : List (String × Val) → Except CfgErr (List (String × Val))
  | [] => .ok []
  | (tool, version) :: rest => do
      let v ← catchVE ("build.tools." ++ tool)
        (match toolVersions tool with
         | some tbl => liftV (validate_choice version (tbl.map (fun p => Val.vstr p.1)))
         | none => Except.error CfgErr.pyexc)
      let others ← toolsLoop rest
      pure ((tool, v) :: others)

/-- `BuildConfigV2.validate_build_config_with_os` (the modern build path). -/
def validate_build_config_with_os (raw : Val) : Except CfgErr (BuildWithOs × Val) := do
  let (osVal, raw) ← catchVE "build.os" (do
    let (v, raw) ← pop_config "build.os" raw .vnone true
    let v ← liftV (validate_choice v (dockerBuildOs.map (fun p => Val.vstr p.1)))
    pure (v, raw))
  let (tools, raw) ← catchVE "build.tools" (do
    let (t, raw) ← pop_config "build.tools" raw .vnone false
    if truthy t then do
      let tm ← liftV (validate_dict t)
      let _ ← liftV (validate_choices (tm.map (fun p => Val.vstr p.1))
        (dockerBuildTools.map (fun p => Val.vstr p.1)))
      pure (t, raw)
    else pure (t, raw))
  let (jobs, raw) ← catchVE "build.jobs" (do
    let (j, raw) ← pop_config "build.jobs" raw (.vdict []) false
    let jm ← liftV (validate_dict j)
    let _ ← liftV (validate_choices (jm.map (fun p => Val.vstr p.1))
      (buildJobsSlots.map Val.vstr))
    pure (j, raw))
  let (commands, raw) ← catchVE "build.commands" (do
    let (c, raw) ← pop_config "build.commands" raw (.vlist []) false
    let _ ← liftV (validate_list c)
    pure (c, raw))
  if !(truthy tools || truthy commands) then
    Except.error (.invalid "build.tools" CONFIG_REQUIRED)
  else if truthy commands && truthy jobs then
    Except.error (.invalid "build.commands" INVALID_KEYS_COMBINATION)
  else do
    let jobsEntries := match jobs with | .vdict m => m | _ => []
    let builtJobs ← buildJobsLoop jobsEntries
    let cmdList := match commands with | .vlist xs => xs | _ => []
    let builtCommands ← catchVE "build.commands" (liftV (stringsAll cmdList))
    let builtTools ←
      if truthy tools then
        toolsLoop (match tools with | .vdict m => m | _ => [])
      else pure []
    let (apt, raw) ← validate_apt_packages raw
    pure ({os := osVal, tools := builtTools, jobs := builtJobs,
           commands := builtCommands, apt_packages := apt}, raw)

/-- `BuildConfigV2.validate_old_build_config` (the legacy build path); the
per-project `build_image` override from the environment defaults wins
last. -/
def validate_old_build_config (defaults raw : Val) :
    Except CfgErr (BuildLegacy × Val) := do
  let (image, raw) ← catchVE "build.image" (do
    let (img, raw) ← pop_config "build.image" raw (.vstr DOCKER_DEFAULT_VERSION) false
    let v ← liftV (validate_choice img (valid_build_images.map Val.vstr))
    let img2 := Val.vstr (DOCKER_DEFAULT_IMAGE ++ ":" ++ pyStr v)
    let img3 := match vgetOpt defaults "build_image" with
      | some ci => if truthy ci then ci else img2
      | none => img2
    pure (img3, raw))
  let (apt, raw) ← validate_apt_packages raw
  pure ({image := image, apt_packages := apt}, raw)

/-- `BuildConfigV2.validate_build`: dispatch to the modern path when any of
`os`, `commands`, `tools` is present in the raw build section, else to the
legacy path. -/
def validate_build (defaults raw : Val) : Except CfgErr (BuildResult × Val) := do
  let rawBuild := vget raw "build" (.vdict [])
  let _ ← catchVE "build" (liftV (validate_dict rawBuild))
  if vhas rawBuild "os" || vhas rawBuild "commands" || vhas rawBuild "tools" then do
    let (b, raw) ← validate_build_config_with_os raw
    pure (.withOs b, raw)
  else do
    let (b, raw) ← validate_old_build_config defaults raw
    pure (.legacy b, raw)

/-- `self._raw_config.setdefault('python', {})['install'] = v`. -/
def setPythonInstall (raw : Val) (v : Val) : Except CfgErr Val :=
  match raw with
  | .vdict m =>
      match (dget m "python").getD (.vdict []) with
      | .vdict pm => .ok (.vdict (dset m "python" (.vdict (dset pm "install" v))))
      | _ => .error .pyexc
  | _ => .error .pyexc

/-- Python `len()` on the re-read `python.install` value (a list or the
index-keyed mapping created by `list_to_dict`). -/
def pyLen : Val → Nat
  | .vlist xs => xs.length
  | .vdict m => m.length
  | _ => 0

/-- `BuildConfigV2.validate_python_install`: each entry supplies exactly one
of `requirements` or `path`; on the path form `method` defaults to pip and
a non-empty `extra_requirements` is only legal with pip. -/
def validate_python_install (i : Nat) (raw : Val) :
    Except CfgErr (PythonInstallEntry × Val) := do
  let key := "python.install." ++ toString i
  let entry ← match vgetOpt raw "python" with
    | some p =>
        match vgetOpt p "install" with
        | some inst =>
            match vgetOpt inst (toString i) with
            | some e => pure e
            | none => Except.error CfgErr.pyexc
        | none => Except.error CfgErr.pyexc
    | none => Except.error CfgErr.pyexc
  let _ ← catchVE key (liftV (validate_dict entry))
  if vhas entry "requirements" then
    catchVE (key ++ ".requirements") (do
      let (v, raw) ← pop_config (key ++ ".requirements") raw .vnone false
      let p ← liftV (validate_path v)
      pure (.requirements p, raw))
  else if vhas entry "path" then do
    let (p, raw) ← catchVE (key ++ ".path") (do
      let (v, raw) ← pop_config (key ++ ".path") raw .vnone false
      let p ← liftV (validate_path v)
      pure (p, raw))
    let (method, raw) ← catchVE (key ++ ".method") (do
      let (v, raw) ← pop_config (key ++ ".method") raw (.vstr PIP) false
      let m ← liftV (validate_choice v [.vstr PIP, .vstr SETUPTOOLS])
      pure (m, raw))
    catchVE (key ++ ".extra_requirements") (do
      let (v, raw) ← pop_config (key ++ ".extra_requirements") raw (.vlist []) false
      let xs ← liftV (validate_list v)
      if !xs.isEmpty && !pyEq method (.vstr PIP) then
        Except.error (.invalid (key ++ ".extra_requirements") PYTHON_INVALID)
      else
        pure (.withPath p method xs, raw))
  else
    Except.error (.invalid key CONFIG_REQUIRED)

/-- The comprehension `[self.validate_python_install(index) for index in
range(len(raw_install))]`, threading the raw document. -/
def validate_python_install_loop (raw : Val) (idx n : Nat) :
    Except CfgErr (List PythonInstallEntry × Val) :=
  match n with
  | 0 => .ok ([], raw)
  | Nat.succ k => do
      let (e, raw) ← validate_python_install idx raw
      let (es, raw) ← validate_python_install_loop raw (idx + 1) k
      pure (e :: es, raw)

/-- `BuildConfigV2.validate_python`: the interpreter version is validated
only on the legacy build path (with the float `3.1` quirk corrected to the
string `3.10`); install entries are validated positionally. -/
def validate_python (build : BuildResult) (raw : Val) :
    Except CfgErr (PythonConfig × Val) := do
  let rawPython := vget raw "python" (.vdict [])
  let _ ← catchVE "python" (liftV (validate_dict rawPython))
  let (versionOpt, raw) ←
    if !build.usingBuildTools then
      catchVE "python.version" (do
        let (version, raw) ← pop_config "python.version" raw (.vstr "3") false
        let version := if pyEq version (.vfloat "3.1") then Val.vstr "3.10" else version
        let versionS := pyStr version
        let v ← liftV (validate_choice (.vstr versionS)
          (get_valid_python_versions_for_image build.image))
        pure (some v, raw))
    else pure (none, raw)
  let rawInstall := vget (vget raw "python" (.vdict [])) "install" (.vlist [])
  let raw ← catchVE "python.install" (do
    let xs ← liftV (validate_list rawInstall)
    if !xs.isEmpty then
      setPythonInstall raw (.vdict (list_to_dict xs))
    else do
      let (_, raw) ← pop_config "python.install" raw .vnone false
      pure raw)
  let rawInstall2 := vget (vget raw "python" (.vdict [])) "install" (.vlist [])
  let (installs, raw) ← validate_python_install_loop raw 0 (pyLen rawInstall2)
  let (ssp, raw) ← catchVE "python.system_packages" (do
    let (v, raw) ← pop_config "python.system_packages" raw (.vbool false) false
    let b ← liftV (validate_bool v)
    pure (b, raw))
  pure ({version := versionOpt, install := installs,
         use_system_site_packages := ssp}, raw)

/-- `BuildConfigV2.validate_doc_types`: `sphinx` and `mkdocs` may not both
be present. -/
def validate_doc_types (raw : Val) : Except CfgErr Unit :=
  if vhas raw "sphinx" && vhas raw "mkdocs" then
    .error (.invalid "." INVALID_KEYS_COMBINATION)
  else .ok ()

/-- `BuildConfigV2.validate_mkdocs`. -/
def validate_mkdocs (raw : Val) : Except CfgErr (Option MkdocsConfig × Val) := do
  match vgetOpt raw "mkdocs" with
  | none => pure (none, raw)
  | some .vnone => pure (none, raw)
  | some rawMkdocs => do
      let _ ← catchVE "mkdocs" (liftV (validate_dict rawMkdocs))
      let (configuration, raw) ← catchVE "mkdocs.configuration" (do
        let (c, raw) ← pop_config "mkdocs.configuration" raw .vnone false
        match c with
        | .vnone => pure (none, raw)
        | c => do
            let p ← liftV (validate_path c)
            pure (some p, raw))
      let (fow, raw) ← catchVE "mkdocs.fail_on_warning" (do
        let (v, raw) ← pop_config "mkdocs.fail_on_warning" raw (.vbool false) false
        let b ← liftV (validate_bool v)
        pure (b, raw))
      pure (some {configuration := configuration, fail_on_warning := fow}, raw)

/-- `BuildConfigV2.validate_sphinx`: sphinx defaults to present unless an
mkdocs section was configured; the builder names map to the doctype
identifiers; the default configuration path comes from the environment
defaults. -/
def validate_sphinx (defaults : Val) (mkdocs : Option MkdocsConfig) (raw : Val) :
    Except CfgErr (Option SphinxConfig × Val) := do
  let rawSphinxOpt := match vgetOpt raw "sphinx" with
    | none => none
    | some .vnone => none
    | some v => some v
  match rawSphinxOpt, mkdocs with
  | none, some _ => pure (none, raw)
  | rso, _ => do
      let rawSphinx := rso.getD (Val.vdict [])
      let _ ← catchVE "sphinx" (liftV (validate_dict rawSphinx))
      let (builder, raw) ← catchVE "sphinx.builder" (do
        let (b, raw) ← pop_config "sphinx.builder" raw (.vstr "html") false
        let v ← liftV (validate_choice b (valid_sphinx_builders.map (fun p => Val.vstr p.1)))
        pure (v, raw))
      let builderResolved :=
        ((valid_sphinx_builders.find? (fun p => pyEq builder (.vstr p.1))).map
          Prod.snd).getD ""
      let (configuration, raw) ← catchVE "sphinx.configuration" (do
        let dflt0 := vget defaults "sphinx_configuration" .vnone
        let dflt := if truthy dflt0 then dflt0 else Val.vnone
        let (c, raw) ← pop_config "sphinx.configuration" raw dflt false
        match c with
        | .vnone => pure (none, raw)
        | c => do
            let p ← liftV (validate_path c)
            pure (some p, raw))
      let (fow, raw) ← catchVE "sphinx.fail_on_warning" (do
        let (v, raw) ← pop_config "sphinx.fail_on_warning" raw (.vbool false) false
        let b ← liftV (validate_bool v)
        pure (b, raw))
      pure (some {builder := builderResolved, configuration := configuration,
                  fail_on_warning := fow}, raw)

/-- `BuildConfigV2.validate_submodules`: include/exclude accept the `all`
keyword or a string list; exclude defaults to `all` when include is empty
and to the empty list otherwise; including and excluding at the same time
is an error. -/
def validate_submodules (raw : Val) : Except CfgErr (SubmodulesConfig × Val) := do
  let rawSubmodules := vget raw "submodules" (.vdict [])
  let _ ← catchVE "submodules" (liftV (validate_dict rawSubmodules))
  let (includeVal, raw) ← catchVE "submodules.include" (do
    let (inc, raw) ← pop_config "submodules.include" raw (.vlist []) false
    if pyEq inc (.vstr ALL) then pure (inc, raw)
    else do
      let xs ← liftV (validate_list inc)
      let ss ← liftV (stringsAll xs)
      pure (Val.vlist (ss.map Val.vstr), raw))
  let (excludeVal, raw) ← catchVE "submodules.exclude" (do
    let dflt := if truthy includeVal then Val.vlist [] else Val.vstr ALL
    let (exc, raw) ← pop_config "submodules.exclude" raw dflt false
    if pyEq exc (.vstr ALL) then pure (exc, raw)
    else do
      let xs ← liftV (validate_list exc)
      let ss ← liftV (stringsAll xs)
      pure (Val.vlist (ss.map Val.vstr), raw))
  let isIncluding := truthy includeVal
  let isExcluding := pyEq excludeVal (.vstr ALL) || truthy excludeVal
  if isIncluding && isExcluding then
    Except.error (.invalid "submodules" SUBMODULES_INVALID)
  else do
    let (recursiveVal, raw) ← catchVE "submodules.recursive" (do
      let (r, raw) ← pop_config "submodules.recursive" raw (.vbool false) false
      let b ← liftV (validate_bool r)
      pure (b, raw))
    pure ({include_ := includeVal, exclude := excludeVal,
           recursive := recursiveVal}, raw)

/-- `list(range(-10, 10 + 1))`, the legal search ranks. -/
def rankRange : List Val := (List.range 21).map (fun i => Val.vint ((i : Int) - 10))

/-- The loop building `search['ranking']`. -/
def rankingLoop : List (String × Val) → Except String (List (String × Val))
  | [] => .ok []
  | (pattern, rank) :: rest => do
      let p ← validate_path_pattern (.vstr pattern)
      let _ ← validate_choice rank rankRange
      let others ← rankingLoop rest
      pure ((p, rank) :: others)

/-- `BuildConfigV2.validate_search`. -/
def validate_search (raw : Val) : Except CfgErr (SearchConfig × Val) := do
  let rawSearch := vget raw "search" (.vdict [])
  let _ ← catchVE "search" (liftV (validate_dict rawSearch))
  let (ranking, raw) ← catchVE "search.ranking" (do
    let (r, raw) ← pop_config "search.ranking" raw (.vdict []) false
    let rm ← liftV (validate_dict r)
    let fr ← liftV (rankingLoop rm)
    pure (fr, raw))
  let (ignore, raw) ← catchVE "search.ignore" (do
    let dflt := Val.vlist [.vstr "search.html", .vstr "search/index.html",
                           .vstr "404.html", .vstr "404/index.html"]
    let (ig, raw) ← pop_config "search.ignore" raw dflt false
    let xs ← liftV (validate_list ig)
    let ps ← liftV (patternsAll xs)
    pure (ps, raw))
  pure ({ranking := ranking, ignore := ignore}, raw)

/-- `BuildConfigV2._get_extra_key`: the first remaining key path of the raw
mapping, depth-first, taking the first key at each level. -/
def get_extra_key : Val → List String
  | .vdict ((k, v) :: _) => k :: get_extra_key v
  | _ => []

/-- `BuildConfigV2.validate_keys`: discard the `version` key and fail with
`invalid-key` on the first remaining key path, if any. -/
def validate_keys (raw : Val) : Except CfgErr Val := do
  let (_, raw) ← pop_config "version" raw .vnone false
  let wrongKey := joinKeys (get_extra_key raw)
  if !wrongKey.data.isEmpty then
    Except.error (.invalid wrongKey INVALID_KEY)
  else pure raw

/-- The validated V2 specification sections populated by `validate`. -/
structure V2Config where
  formats : List Val
  conda : Option String
  build : BuildResult
  python : PythonConfig
  mkdocs : Option MkdocsConfig
  sphinx : Option SphinxConfig
  submodules : SubmodulesConfig
  search : SearchConfig

/-- `BuildConfigV2.validate`: the fixed stage order of the V2 schema engine,
ending with the unknown-key sweep.  `env` is the injected environment
configuration; its `defaults` entry supplies the per-project overrides. -/
def validate (env raw : Val) : Except CfgErr V2Config := do
  let defaults := vget env "defaults" (.vdict [])
  let (formats, raw) ← validate_formats raw
  let (conda, raw) ← validate_conda raw
  let (build, raw) ← validate_build defaults raw
  let (python, raw) ← validate_python build raw
  let _ ← validate_doc_types raw
  let (mkdocs, raw) ← validate_mkdocs raw
  let (sphinx, raw) ← validate_sphinx defaults mkdocs raw
  let (submodules, raw) ← validate_submodules raw
  let (search, raw) ← validate_search raw
  let _ ← validate_keys raw
  pure {formats := formats, conda := conda, build := build, python := python,
        mkdocs := mkdocs, sphinx := sphinx, submodules := submodules,
        search := search}

end V2

namespace V1

/-- Python `in` on an arbitrary container value (`'image' in _build`):
key membership for mappings, element equality for lists, substring test for
strings, `TypeError` otherwise. -/
def pyContains (v : Val) (s : String) : Except CfgErr Bool :=
  match v with
  | .vdict m => .ok (dget m s).isSome
  | .vlist xs => .ok (xs.any (fun x => pyEq x (.vstr s)))
  | .vstr t => .ok (listContainsSub t.data s.data)
  | _ => .error .pyexc

/-- `d[k] = v` on a mapping value (only applied to mappings here). -/
def setKey (v : Val) (key : String) (x : Val) : Val :=
  match v with
  | .vdict m => .vdict (dset m key x)
  | _ => v

/-- Python `dict.update`: assign every entry of `other` into `d`. -/
def pyUpdate (d other : Val) : Val :=
  match d, other with
  | .vdict m, .vdict o => .vdict (o.foldl (fun acc kv => dset acc kv.1 kv.2) m)
  | _, _ => d

/-- `BuildConfigV1.validate_build`: start from the environment's default
build (or the global default image), apply a user-chosen image validated
against the legal image names (auto-prefixing bare versions), then update
`env_config` in place with the catalog settings of the resolved image, and
finally apply the per-project `build_image` override.  Returns the build
section together with the environment configuration after the pass (the
source mutates `self.env_config`, which makes that mutation observable). -/
def validate_build (env raw defaults : Val) : Except CfgErr (Val × Val) := do
  let build ← match vgetOpt env "build" with
    | some (.vdict m) => pure (Val.vdict m)
    | some _ => Except.error CfgErr.pyexc
    | none => pure (Val.vdict [("image", Val.vstr DOCKER_IMAGE)])
  let build ←
    if vhas raw "build" then do
      let rawBuild := vget raw "build" .vnone
      let hasImage ← pyContains rawBuild "image"
      let build ←
        if hasImage then
          catchVE "build" (do
            let img := vget rawBuild "image" .vnone
            let v ← liftV (validate_choice (.vstr (pyStr img))
              (valid_build_images.map Val.vstr))
            pure (setKey build "image" v))
        else pure build
      let imgVal ← match vgetOpt build "image" with
        | some x => pure x
        | none => Except.error CfgErr.pyexc
      let hasColon ← match imgVal with
        | .vstr s => pure (s.data.contains ':')
        | _ => Except.error CfgErr.pyexc
      if hasColon then pure build
      else pure (setKey build "image"
        (.vstr (DOCKER_DEFAULT_IMAGE ++ ":" ++ pyStr imgVal)))
    else pure build
  let imgCur ← match vgetOpt build "image" with
    | some x => pure x
    | none => Except.error CfgErr.pyexc
  let env2 := match DOCKER_IMAGE_SETTINGS.find? (fun p => pyEq imgCur (.vstr p.1)) with
    | some p => pyUpdate env p.2
    | none => env
  let build := match vgetOpt defaults "build_image" with
    | some ci => if truthy ci then setKey build "image" ci else build
    | none => build
  pure (build, env2)

/-- The validated `python` section of a V1 document
(`self._config['python']`). -/
structure PythonV1 where
  use_system_site_packages : Val
  install_with_pip : Val
  extra_requirements : List Val
  install_with_setup : Val
  version : Val

/-- Convert a Python iterable of choices to the list membership is tested
against (`list(choices)`): mappings iterate their keys, strings their
characters. -/
def choiceList (v : Val) : Except CfgErr (List Val) :=
  match v with
  | .vlist xs => .ok xs
  | .vdict m => .ok (m.map (fun p => Val.vstr p.1))
  | .vstr s => .ok (s.data.map (fun c => Val.vstr c.toString))
  | _ => .error .pyexc

/-- The union of the supported python versions over the whole image catalog
(the `except` branch of `BuildConfigV1.get_valid_python_versions`).  The
source builds a set; only membership is observed, so concatenation is
equivalent. -/
def fallbackSupportedVersions : List Val :=
  DOCKER_IMAGE_SETTINGS.foldl (fun acc p =>
    acc ++ (match vget (vget p.2 "python" .vnone) "supported_versions" .vnone with
            | .vlist xs => xs
            | _ => [])) []

/-- `BuildConfigV1.get_valid_python_versions`: the environment's
`python.supported_versions` when present, else the catalog-wide union
(`KeyError`/`TypeError` fall back). -/
def get_valid_python_versions (env : Val) : Except CfgErr (List Val) :=
  match vgetOpt env "python" with
  | some (.vdict pm) =>
      match dget pm "supported_versions" with
      | some v => choiceList v
      | none => .ok fallbackSupportedVersions
  | some _ => .ok fallbackSupportedVersions
  | none => .ok fallbackSupportedVersions

/-- `BuildConfigV1.validate_python`: defaults from the per-project
environment defaults, then each present key validated in source order;
`extra_requirements` is silently cleared when pip install is not enabled. -/
def validate_python (env raw defaults : Val) : Except CfgErr PythonV1 := do
  let p0 : PythonV1 :=
    {use_system_site_packages := vget defaults "use_system_packages" (.vbool false),
     install_with_pip := .vbool false,
     extra_requirements := [],
     install_with_setup := vget defaults "install_project" (.vbool false),
     version := vget defaults "python_version" (.vstr "2")}
  match vgetOpt raw "python" with
  | none => pure p0
  | some rawPython =>
      match rawPython with
      | .vdict pm => do
          let p ←
            if (dget pm "use_system_site_packages").isSome then
              catchVE "python.use_system_site_packages" (do
                let b ← liftV (validate_bool (vget rawPython "use_system_site_packages" .vnone))
                pure {p0 with use_system_site_packages := b})
            else pure p0
          let p ←
            if (dget pm "pip_install").isSome then
              catchVE "python.pip_install" (do
                let b ← liftV (validate_bool (vget rawPython "pip_install" .vnone))
                pure {p with install_with_pip := b})
            else pure p
          let p ←
            if (dget pm "extra_requirements").isSome then
              match vget rawPython "extra_requirements" .vnone with
              | .vlist xs =>
                  if !(truthy p.install_with_pip) then
                    pure {p with extra_requirements := []}
                  else do
                    let ss ← catchVE "python.extra_requirements" (liftV (stringsAll xs))
                    pure {p with extra_requirements := ss.map Val.vstr}
              | _ => Except.error (.invalid "python.extra_requirements" PYTHON_INVALID)
            else pure p
          let p ←
            if (dget pm "setup_py_install").isSome then
              catchVE "python.setup_py_install" (do
                let b ← liftV (validate_bool (vget rawPython "setup_py_install" .vnone))
                pure {p with install_with_setup := b})
            else pure p
          let p ←
            if (dget pm "version").isSome then
              catchVE "python.version" (do
                let versionS := pyStr (vget rawPython "version" .vnone)
                let choices ← get_valid_python_versions env
                let v ← liftV (validate_choice (.vstr versionS) choices)
                pure {p with version := v})
            else pure p
          pure p
      | _ => Except.error (.invalid "python" PYTHON_INVALID)

/-- `BuildConfigV1.validate_formats`: an absent (or null) key resolves to
the project-level default list; `['none']` is shorthand for empty;
otherwise each entry is checked against the fixed V1 format set. -/
def validate_formats (raw defaults : Val) : Except CfgErr Val := do
  match vgetOpt raw "formats" with
  | none => pure (vget defaults "formats" (.vlist []))
  | some .vnone => pure (vget defaults "formats" (.vlist []))
  | some f =>
      if pyEq f (.vlist [.vstr "none"]) then pure (.vlist [])
      else
        catchVE "format" (do
          let xs ← liftV (validate_list f)
          let _ ← liftV (validate_choices xs (["htmlzip", "pdf", "epub"].map Val.vstr))
          pure f)

/-- `BuildConfigV1.validate_conda`: optional, but requires a `file` key. -/
def validate_conda (raw : Val) : Except CfgErr (Option String) := do
  if vhas raw "conda" then do
    let rawConda := vget raw "conda" .vnone
    let _ ← catchVE "conda" (liftV (validate_dict rawConda))
    catchVE "conda.file" (do
      match vgetOpt rawConda "file" with
      | none => Except.error (.vfail VALUE_NOT_FOUND)
      | some f => do
          let p ← liftV (validate_path f)
          pure (some p))
  else pure none

/-- `BuildConfigV1.validate_requirements_file`. -/
def validate_requirements_file (raw defaults : Val) : Except CfgErr (Option String) := do
  let rf := if vhas raw "requirements_file" then vget raw "requirements_file" .vnone
            else vget defaults "requirements_file" .vnone
  if !(truthy rf) then pure none
  else
    catchVE "requirements_file" (do
      let p ← liftV (validate_path rf)
      pure (some p))

/-- The sections populated by `BuildConfigV1.validate`. -/
structure V1Config where
  build : Val
  python : PythonV1
  formats : Val
  conda : Option String
  requirements_file : Option String

/-- `BuildConfigV1.validate`: build first (it resolves the image and updates
`env_config`), then python, formats, conda and the requirements file.
Returns the validated sections together with the environment configuration
as it stands after the pass. -/
def validate (env raw : Val) : Except CfgErr (V1Config × Val) := do
  let defaults := vget env "defaults" (.vdict [])
  let (build, env2) ← validate_build env raw defaults
  let python ← validate_python env2 raw defaults
  let formats ← validate_formats raw defaults
  let conda ← validate_conda raw
  let rf ← validate_requirements_file raw defaults
  pure ({build := build, python := python, formats := formats, conda := conda,
         requirements_file := rf}, env2)

end V1

/-! Shared expected-result abbreviations for the fully defaulted V2
sections, used to state end-to-end runs compactly. -/

/-- The defaulted sphinx section of a V2 document with no `sphinx` and no
`mkdocs` key. -/
def defaultSphinx : V2.SphinxConfig :=
  {builder := "sphinx", configuration := none, fail_on_warning := .vbool false}

/-- The defaulted submodules section. -/
def defaultSubmodules : V2.SubmodulesConfig :=
  {include_ := .vlist [], exclude := .vstr ALL, recursive := .vbool false}

/-- The defaulted search section. -/
def defaultSearch : V2.SearchConfig :=
  {ranking := [],
   ignore := ["search.html", "search/index.html", "404.html", "404/index.html"]}

/-- The defaulted V2 python section on the legacy build path. -/
def defaultPythonV2 : V2.PythonConfig :=
  {version := some (.vstr "3"), install := [], use_system_site_packages := .vbool false}

/-- The legacy build section resolved from an absent `build.image`. -/
def legacyLatestBuild (apt : List String) : V2.BuildResult :=
  .legacy {image := .vstr (DOCKER_DEFAULT_IMAGE ++ ":" ++ DOCKER_DEFAULT_VERSION),
           apt_packages := apt}

/-- The shape of a `python.install` entry's `method` key used to state the
C5 family: absent, or explicitly pip, or explicitly setuptools. -/
inductive C5Method where
  | absent
  | pip
  | setuptools

/-- The resolved install method: pip unless setuptools was requested. -/
def C5Method.resolved : C5Method → String
  | .setuptools => SETUPTOOLS
  | _ => PIP

/-- Whether the (resolved) method is setuptools. -/
def C5Method.isSetuptools : C5Method → Bool
  | .setuptools => true
  | _ => false

/-- A raw document whose only content is one path-form `python.install`
entry with the given method shape and optional `extra_requirements` list. -/
def c5Raw (mo : C5Method) (oExtra : Option (List Val)) : Val :=
  .vdict [("python", .vdict [("install", .vdict [("0", .vdict (
    [("path", Val.vstr ".")] ++
    (match mo with
     | .absent => []
     | .pip => [("method", Val.vstr PIP)]
     | .setuptools => [("method", Val.vstr SETUPTOOLS)]) ++
    (match oExtra with
     | none => []
     | some xs => [("extra_requirements", Val.vlist xs)])))])])]

/-- A well-formed submodule include/exclude value: the `all` keyword or an
explicit list of names. -/
inductive SubVal where
  | all
  | strs (xs : List String)

/-- The raw value denoted by a `SubVal`. -/
def SubVal.toVal : SubVal → Val
  | .all => .vstr ALL
  | .strs xs => .vlist (xs.map Val.vstr)

/-- Non-emptiness of a resolved include/exclude value, the `all` keyword
counting as non-empty. -/
def SubVal.nonEmpty : SubVal → Bool
  | .all => true
  | .strs xs => !xs.isEmpty

/-- A raw document whose only content is a `submodules` section with the
given optional include, exclude and recursive keys. -/
def c3Raw (inc exc : Option SubVal) (rc : Option Bool) : Val :=
  .vdict [("submodules", .vdict (
    (match inc with | some i => [("include", i.toVal)] | none => []) ++
    (match exc with | some e => [("exclude", e.toVal)] | none => []) ++
    (match rc with | some b => [("recursive", Val.vbool b)] | none => [])))]

/-- The include value the engine resolves: the given one, defaulting to the
empty list. -/
def c3ResolvedInclude (inc : Option SubVal) : SubVal := inc.getD (.strs [])

/-- The exclude value the engine resolves: the given one, defaulting to the
`all` keyword when the resolved include is empty and to the empty list
otherwise. -/
def c3ResolvedExclude (inc exc : Option SubVal) : SubVal :=
  exc.getD (if (c3ResolvedInclude inc).nonEmpty then .strs [] else .all)

/-- Bind on `Except` reduces on success. -/
@[simp] theorem ok_bind {ε α β : Type} (a : α) (f : α → Except ε β) :
    (Except.ok a : Except ε α) >>= f = f a := rfl

/-- Bind on `Except` propagates failure. -/
@[simp] theorem error_bind {ε α β : Type} (e : ε) (f : α → Except ε β) :
    (Except.error e : Except ε α) >>= f = Except.error e := rfl

/-- `pure` on `Except` is `ok`. -/
@[simp] theorem pure_except {ε α : Type} (a : α) :
    (pure a : Except ε α) = Except.ok a := rfl

/-- `catch_validation_error` does not alter a success. -/
@[simp] theorem catchVE_ok {α : Type} (k : String) (a : α) :
    catchVE k (Except.ok a) = Except.ok a := rfl

/-- `catch_validation_error` re-labels a primitive failure with the key. -/
@[simp] theorem catchVE_vfail {α : Type} (k c : String) :
    (catchVE k (Except.error (CfgErr.vfail c)) : Except CfgErr α) =
      Except.error (.invalid k c) := rfl

/-- `catch_validation_error` passes an `InvalidConfig` through unchanged. -/
@[simp] theorem catchVE_invalid {α : Type} (k k2 c : String) :
    (catchVE k (Except.error (CfgErr.invalid k2 c)) : Except CfgErr α) =
      Except.error (.invalid k2 c) := rfl

/-- Lifting a successful primitive. -/
@[simp] theorem liftV_ok {α : Type} (a : α) :
    liftV (Except.ok a : Except String α) = Except.ok a := rfl

/-- Lifting a failed primitive. -/
@[simp] theorem liftV_error {α : Type} (c : String) :
    liftV (Except.error c : Except String α) = Except.error (CfgErr.vfail c) := rfl

/-- String validation of an all-strings list succeeds with the same
strings. -/
theorem stringsAll_map_vstr (ss : List String) :
    stringsAll (ss.map Val.vstr) = .ok ss := by
  induction ss with
  | nil => rfl
  | cons s rest ih => simp [List.map, stringsAll, validate_string, ih]

/-- Cons form of `stringsAll_map_vstr`, for terms simp has already
unfolded one step. -/
theorem stringsAll_cons_map (s : String) (rest : List String) :
    stringsAll (Val.vstr s :: rest.map Val.vstr) = .ok (s :: rest) := by
  simpa [List.map] using stringsAll_map_vstr (s :: rest)

/-- Claim C9: on the modern build path a `python.version` key is left
unconsumed by the python stage and is reported by the unknown-key sweep as
`invalid-key` with key path `python.version` (for any string value). -/
theorem spec_c9 (s : String) :
    V2.validate (.vdict [])
      (.vdict [("version", .vint 2),
        ("build", .vdict [("os", .vstr "ubuntu-22.04"),
          ("tools", .vdict [("python", .vstr "3.11")])]),
        ("python", .vdict [("version", .vstr s)])]) =
      .error (.invalid "python.version" INVALID_KEY) := rfl

/-- Claim C1, corrected: a V2 validation leaves the injected environment
configuration unchanged (its validators never write to it), but a V1
`validate()` mutates `env_config` in place: when the resolved build image is
in the catalog, the image's settings are merged into `env_config`
(`validate_build`, lines 493-497); when the resolved image is not in the
catalog, `env_config` is left unchanged.  Shown on a run with the default
image (mutation to exactly the catalog settings of
`readthedocs/build:latest`) and a run with a non-catalog environment image
(no mutation). -/
theorem spec_c1 :
    V1.validate (.vdict []) (.vdict []) =
      .ok ({build := .vdict [("image", .vstr "readthedocs/build:latest")],
            python := {use_system_site_packages := .vbool false,
                       install_with_pip := .vbool false, extra_requirements := [],
                       install_with_setup := .vbool false, version := .vstr "2"},
            formats := .vlist [], conda := none, requirements_file := none},
           imageSettings60) ∧
    V1.validate (.vdict [("build", .vdict [("image", .vstr "custom:1.0")])])
        (.vdict []) =
      .ok ({build := .vdict [("image", .vstr "custom:1.0")],
            python := {use_system_site_packages := .vbool false,
                       install_with_pip := .vbool false, extra_requirements := [],
                       install_with_setup := .vbool false, version := .vstr "2"},
            formats := .vlist [], conda := none, requirements_file := none},
           .vdict [("build", .vdict [("image", .vstr "custom:1.0")])]) :=
  ⟨rfl, rfl⟩

/-- Claim C1 is false as stated: a V1 `validate()` on the empty environment
configuration returns successfully with the environment configuration
changed (it now carries the catalog settings of the resolved default
image), so `env_config` does not equal its value before the call. -/
theorem spec_c1_counterexample :
    (V1.validate (.vdict []) (.vdict [])).toOption.map Prod.snd =
        some imageSettings60 ∧
      imageSettings60 ≠ Val.vdict [] := by
  refine ⟨rfl, ?_⟩
  simp [imageSettings60]

/-- Claim C2, corrected: on the modern build path, when `build.os` is
present and valid (and the tools/jobs/commands shapes pass their checks),
a document with both `build.commands` and `build.jobs` fails with
`invalid-keys-combination` — for any non-empty command list and any value
under a valid job name, since the combination check runs before the job
commands are validated. -/
theorem spec_c2 (cmds : List Val) (jv : Val) (h : cmds ≠ []) :
    V2.validate (.vdict [])
      (.vdict [("version", .vint 2),
        ("build", .vdict [("os", .vstr "ubuntu-22.04"),
          ("commands", .vlist cmds),
          ("jobs", .vdict [("pre_build", jv)])])]) =
      .error (.invalid "build.commands" INVALID_KEYS_COMBINATION) := by
  cases cmds with
  | nil => exact absurd rfl h
  | cons c cs => rfl

/-- Claim C2 is false as stated: the spec's own example document (both
`build.commands` and `build.jobs` present, taking the modern build path)
fails at the required `build.os` key with the primitive `value-not-found`
code, not with `invalid-keys-combination`. -/
theorem spec_c2_counterexample :
    V2.validate (.vdict [])
      (.vdict [("version", .vint 2),
        ("build", .vdict [("commands", .vlist [.vstr "echo hi"]),
          ("jobs", .vdict [("pre_build", .vlist [.vstr "x"])])])]) =
      .error (.invalid "build.os" VALUE_NOT_FOUND) ∧
    VALUE_NOT_FOUND ≠ INVALID_KEYS_COMBINATION :=
  ⟨rfl, by decide⟩

/-- Witness for C2: the spec's example with `build.os: ubuntu-22.04` added
fails with `invalid-keys-combination`. -/
theorem spec_c2_witness :
    V2.validate (.vdict [])
      (.vdict [("version", .vint 2),
        ("build", .vdict [("os", .vstr "ubuntu-22.04"),
          ("commands", .vlist [.vstr "echo hi"]),
          ("jobs", .vdict [("pre_build", .vlist [.vstr "x"])])])]) =
      .error (.invalid "build.commands" INVALID_KEYS_COMBINATION) :=
  spec_c2 [.vstr "echo hi"] (.vlist [.vstr "x"]) (by simp)

/-- Claim C4: after all stages the `version` key is discarded and the first
remaining key path — depth-first, first key at each level — is reported as
`invalid-key`: an otherwise-valid V2 document with an extra top-level key
`foo` (any string value) fails with key path `foo`, and an extra key whose
value is a nested mapping is reported by its first-keys path. -/
theorem spec_c4 :
    (∀ s : String,
      V2.validate (.vdict []) (.vdict [("version", .vint 2), ("foo", .vstr s)]) =
        .error (.invalid "foo" INVALID_KEY)) ∧
    V2.validate (.vdict [])
      (.vdict [("version", .vint 2),
        ("foo", .vdict [("a", .vdict [("x", .vint 1), ("y", .vint 2)]),
                        ("b", .vint 1)])]) =
      .error (.invalid "foo.a.x" INVALID_KEY) :=
  ⟨fun _ => rfl, rfl⟩

/-- Claim C5: a path-form `python.install` entry defaults its method to pip,
and a non-empty `extra_requirements` list is accepted exactly when the
resolved method is pip (failing with `python-invalid` otherwise); the spec's
two example documents behave accordingly end to end. -/
theorem spec_c5 :
    (∀ (mo : C5Method) (oExtra : Option (List Val)),
      V2.validate_python_install 0 (c5Raw mo oExtra) =
        (if !(oExtra.getD []).isEmpty && mo.isSetuptools then
          .error (.invalid "python.install.0.extra_requirements" PYTHON_INVALID)
        else
          .ok (.withPath "." (.vstr mo.resolved) (oExtra.getD []), .vdict []))) ∧
    V2.validate (.vdict [])
      (.vdict [("version", .vint 2),
        ("python", .vdict [("install", .vlist
          [.vdict [("path", .vstr "."),
                   ("extra_requirements", .vlist [.vstr "x"])]])])]) =
      .ok {formats := [], conda := none, build := legacyLatestBuild [],
           python := {version := some (.vstr "3"),
                      install := [.withPath "." (.vstr PIP) [.vstr "x"]],
                      use_system_site_packages := .vbool false},
           mkdocs := none, sphinx := some defaultSphinx,
           submodules := defaultSubmodules, search := defaultSearch} ∧
    V2.validate (.vdict [])
      (.vdict [("version", .vint 2),
        ("python", .vdict [("install", .vlist
          [.vdict [("path", .vstr "."), ("method", .vstr SETUPTOOLS),
                   ("extra_requirements", .vlist [.vstr "x"])]])])]) =
      .error (.invalid "python.install.0.extra_requirements" PYTHON_INVALID) := by
  refine ⟨?_, rfl, rfl⟩
  intro mo oExtra
  cases mo <;> cases oExtra <;>
    first
    | rfl
    | (rename_i xs; cases xs <;> rfl)

/-- Claim C6: a V1 `python.extra_requirements` list is silently cleared to
empty — with no error and no per-entry validation — whenever `pip_install`
is absent or false (for any entry values), and is retained entry by entry
(string-validated) when `pip_install` is true; the whole V1 validation of
such a document succeeds. -/
theorem spec_c6 :
    (∀ xs : List Val,
      V1.validate_python (.vdict [])
        (.vdict [("python", .vdict [("extra_requirements", .vlist xs)])])
        (.vdict []) =
      .ok {use_system_site_packages := .vbool false, install_with_pip := .vbool false,
           extra_requirements := [], install_with_setup := .vbool false,
           version := .vstr "2"}) ∧
    (∀ xs : List Val,
      V1.validate_python (.vdict [])
        (.vdict [("python", .vdict [("pip_install", .vbool false),
          ("extra_requirements", .vlist xs)])])
        (.vdict []) =
      .ok {use_system_site_packages := .vbool false, install_with_pip := .vbool false,
           extra_requirements := [], install_with_setup := .vbool false,
           version := .vstr "2"}) ∧
    (∀ ss : List String,
      V1.validate_python (.vdict [])
        (.vdict [("python", .vdict [("pip_install", .vbool true),
          ("extra_requirements", .vlist (ss.map Val.vstr))])])
        (.vdict []) =
      .ok {use_system_site_packages := .vbool false, install_with_pip := .vbool true,
           extra_requirements := ss.map Val.vstr, install_with_setup := .vbool false,
           version := .vstr "2"}) ∧
    (∀ xs : List Val,
      V1.validate (.vdict [])
        (.vdict [("python", .vdict [("extra_requirements", .vlist xs)])]) =
      .ok ({build := .vdict [("image", .vstr "readthedocs/build:latest")],
            python := {use_system_site_packages := .vbool false,
                       install_with_pip := .vbool false, extra_requirements := [],
                       install_with_setup := .vbool false, version := .vstr "2"},
            formats := .vlist [], conda := none, requirements_file := none},
           imageSettings60)) := by
  refine ⟨fun xs => rfl, fun xs => rfl, ?_, fun xs => rfl⟩
  intro ss
  have step :
      V1.validate_python (.vdict [])
        (.vdict [("python", .vdict [("pip_install", .vbool true),
          ("extra_requirements", .vlist (ss.map Val.vstr))])])
        (.vdict []) =
      (catchVE "python.extra_requirements"
          (liftV (stringsAll (ss.map Val.vstr)))) >>= (fun ss2 =>
        Except.ok {use_system_site_packages := .vbool false,
                   install_with_pip := .vbool true,
                   extra_requirements := ss2.map Val.vstr,
                   install_with_setup := .vbool false,
                   version := .vstr "2"}) := rfl
  rw [step, stringsAll_map_vstr]
  rfl

/-- Claim C7: each `build.apt_packages` entry is stripped of surrounding
whitespace and then rejected with `invalid-name` exactly when the stripped
name starts with `-`, `/` or `.` or falls outside the pattern
`[A-Za-z0-9][A-Za-z0-9.+-]*`; in particular `-bad` fails and a padded
`libfoo-dev` validates (trimmed). -/
theorem spec_c7 :
    (∀ s : String,
      V2.validate_apt_package 0
        (.vdict [("build", .vdict [("apt_packages", .vdict [("0", .vstr s)])])]) =
        (if startsWithChar (pyStrip s) '-' || startsWithChar (pyStrip s) '/' ||
            startsWithChar (pyStrip s) '.' || !V2.aptNamePattern (pyStrip s) then
          .error (.invalid "build.apt_packages.0" INVALID_NAME)
        else .ok (pyStrip s, .vdict []))) ∧
    V2.validate (.vdict [])
      (.vdict [("version", .vint 2),
        ("build", .vdict [("apt_packages", .vlist [.vstr "-bad"])])]) =
      .error (.invalid "build.apt_packages.0" INVALID_NAME) ∧
    V2.validate (.vdict [])
      (.vdict [("version", .vint 2),
        ("build", .vdict [("apt_packages", .vlist [.vstr " libfoo-dev "])])]) =
      .ok {formats := [], conda := none, build := legacyLatestBuild ["libfoo-dev"],
           python := defaultPythonV2, mkdocs := none, sphinx := some defaultSphinx,
           submodules := defaultSubmodules, search := defaultSearch} := by
  refine ⟨?_, rfl, rfl⟩
  intro s
  have step :
      V2.validate_apt_package 0
        (.vdict [("build", .vdict [("apt_packages", .vdict [("0", .vstr s)])])]) =
      catchVE "build.apt_packages.0"
        (if startsWithChar (pyStrip s) '-' then
          Except.error (.invalid "build.apt_packages.0" INVALID_NAME)
        else if startsWithChar (pyStrip s) '/' then
          Except.error (.invalid "build.apt_packages.0" INVALID_NAME)
        else if startsWithChar (pyStrip s) '.' then
          Except.error (.invalid "build.apt_packages.0" INVALID_NAME)
        else if V2.aptNamePattern (pyStrip s) then
          Except.ok (pyStrip s, Val.vdict [])
        else Except.error (.invalid "build.apt_packages.0" INVALID_NAME)) := rfl
  rw [step]
  cases h1 : startsWithChar (pyStrip s) '-' <;>
    cases h2 : startsWithChar (pyStrip s) '/' <;>
      cases h3 : startsWithChar (pyStrip s) '.' <;>
        cases h4 : V2.aptNamePattern (pyStrip s) <;>
          simp [h1, h2, h3, h4, catchVE]

/-- Claim C8: `python.version` is only validated on the legacy build path —
on the modern path the python stage ignores it entirely for any value — and
on the legacy path a version popped as the float `3.1` is corrected to the
string `3.10` before the choice validation: with the default image (which
does not support 3.10) that choice validation fails, and with
`build.image: testing` the full document validates with resolved version
`"3.10"`. -/
theorem spec_c8 :
    (∀ v : Val,
      V2.validate_python
        (.withOs {os := .vstr "ubuntu-22.04", tools := [], jobs := [],
                  commands := [], apt_packages := []})
        (.vdict [("python", .vdict [("version", v)])]) =
      .ok ({version := none, install := [], use_system_site_packages := .vbool false},
           .vdict [("python", .vdict [("version", v)])])) ∧
    V2.validate (.vdict [])
      (.vdict [("version", .vint 2),
        ("python", .vdict [("version", .vfloat "3.1")])]) =
      .error (.invalid "python.version" INVALID_CHOICE) ∧
    V2.validate (.vdict [])
      (.vdict [("version", .vint 2),
        ("build", .vdict [("image", .vstr "testing")]),
        ("python", .vdict [("version", .vfloat "3.1")])]) =
      .ok {formats := [], conda := none,
           build := .legacy {image := .vstr "readthedocs/build:testing",
                             apt_packages := []},
           python := {version := some (.vstr "3.10"), install := [],
                      use_system_site_packages := .vbool false},
           mkdocs := none, sphinx := some defaultSphinx,
           submodules := defaultSubmodules, search := defaultSearch} :=
  ⟨fun _ => rfl, rfl, rfl⟩

/-- Claim C10: with the `formats` key absent, V2 resolves formats to the
empty list, never to the environment's per-project default formats (for any
raw document without that key, and end to end even when the environment
supplies default formats), whereas V1 resolves an absent `formats` key to
exactly the project-level default list. -/
theorem spec_c10 :
    (∀ m : List (String × Val), dget m "formats" = none →
      V2.validate_formats (.vdict m) = .ok ([], .vdict m)) ∧
    (∀ f : Val, V1.validate_formats (.vdict []) (.vdict [("formats", f)]) = .ok f) ∧
    V2.validate (.vdict [("defaults", .vdict [("formats", .vlist [.vstr "pdf"])])])
        (.vdict []) =
      .ok {formats := [], conda := none, build := legacyLatestBuild [],
           python := defaultPythonV2, mkdocs := none, sphinx := some defaultSphinx,
           submodules := defaultSubmodules, search := defaultSearch} ∧
    V1.validate (.vdict [("defaults", .vdict [("formats", .vlist [.vstr "pdf"])])])
        (.vdict []) =
      .ok ({build := .vdict [("image", .vstr "readthedocs/build:latest")],
            python := {use_system_site_packages := .vbool false,
                       install_with_pip := .vbool false, extra_requirements := [],
                       install_with_setup := .vbool false, version := .vstr "2"},
            formats := .vlist [.vstr "pdf"], conda := none,
            requirements_file := none},
           .vdict [("defaults", .vdict [("formats", .vlist [.vstr "pdf"])]),
                   ("python", .vdict
                     [("supported_versions", .vlist
                       [.vstr "2", .vstr "2.7", .vstr "3", .vstr "3.5", .vstr "3.6",
                        .vstr "3.7", .vstr "3.8", .vstr "pypy3.5"]),
                      ("default_version", .vdict
                        [("2", .vstr "2.7"), ("3", .vstr "3.7")])])]) := by
  refine ⟨?_, fun f => rfl, rfl, rfl⟩
  intro m hm
  have hpop : popKey "formats" [] (.vdict m) (.vlist []) false =
      .ok (.vlist [], .vdict m) := by
    unfold popKey
    rw [hm]
    rfl
  have step : V2.validate_formats (.vdict m) =
      (popKey "formats" [] (.vdict m) (.vlist []) false) >>= (fun p =>
        match p with
        | (formats, raw) =>
          if pyEq formats (.vstr ALL) then
            pure (V2.valid_formats.map Val.vstr, raw)
          else
            catchVE "formats" (do
              let xs ← liftV (validate_list formats)
              let _ ← liftV (validate_choices xs (V2.valid_formats.map Val.vstr))
              pure (xs, raw))) := rfl
  rw [step, hpop]
  rfl

set_option maxHeartbeats 4000000 in
/-- Claim C3: submodule validation fails with `submodules-invalid` exactly
when both the resolved include and the resolved exclude are non-empty (the
`all` keyword counting as non-empty) and succeeds for every other
combination; an absent exclude defaults to `all` when the resolved include
is empty and to the empty list otherwise. -/
theorem spec_c3 (inc exc : Option SubVal) (rc : Option Bool) :
    V2.validate_submodules (c3Raw inc exc rc) =
      (if (c3ResolvedInclude inc).nonEmpty &&
          (c3ResolvedExclude inc exc).nonEmpty then
        .error (.invalid "submodules" SUBMODULES_INVALID)
      else
        .ok ({include_ := (c3ResolvedInclude inc).toVal,
              exclude := (c3ResolvedExclude inc exc).toVal,
              recursive := .vbool (rc.getD false)}, .vdict [])) := by
  rcases inc with _ | (_ | xs) <;> rcases exc with _ | (_ | ys) <;> cases rc
  all_goals try cases xs
  all_goals try cases ys
  all_goals
    first
    | rfl
    | simp +decide [V2.validate_submodules, pop_config, splitChar, splitCharAux,
        popKey, dget, dset, dremove, vget, vgetOpt, vhas, truthy, pyEq, pyEqList,
        pyEqDict, validate_dict, validate_list, validate_bool, validate_string, stringsAll,
        stringsAll_map_vstr, stringsAll_cons_map, c3Raw, SubVal.toVal,
        SubVal.nonEmpty, c3ResolvedInclude, c3ResolvedExclude, Option.getD]

/-- Witness for C10: a raw document without a `formats` key (here one with
only a null `conda` key) resolves V2 formats to the empty list. -/
theorem spec_c10_witness :
    V2.validate_formats (.vdict [("conda", .vnone)]) =
      .ok ([], .vdict [("conda", .vnone)]) :=
  spec_c10.1 [("conda", .vnone)] rfl

end RTD
